import Mathlib

/-!
A shallow embedding of the dl compiler (src/main.py): the lexer, the
recursive descent parser with inline binding and type checking, and the
single pass code generator, together with theorems checking the
specification claims against it.

Conventions of the embedding:
- Python token values are either the parsed integer of a digit run or a
  plain string; `TokVal` covers both, as Python does dynamically.
- Code that can raise is modelled with `Except Err`.  `Err.compileError`
  is the structured `CompileError` exception that main catches, prints
  and turns into exit code 1; `Err.attributeError` models an uncaught
  Python `AttributeError` (reading a field of `None`, or reading the
  nonexistent `self.line` attribute of `CodeGen`), which also terminates
  the process with a nonzero exit code but without the structured
  diagnostic.
- The parser mutates a cursor and a symbol table; here the remaining
  token list and the table are passed and returned explicitly.  The
  Python dict is modelled by a most-recent-first association list, whose
  lookup returns the most recently written binding, exactly like dict
  assignment followed by lookup.
- The `while` loop of `parse_block` is written with a fuel argument for
  structural recursion; every call site passes fuel strictly larger than
  the number of remaining tokens, and each loop iteration consumes at
  least one token, so the `Err.outOfFuel` branch is unreachable from
  `parse_function` (the block lemmas below only ever need successful
  runs, on which fuel is proved irrelevant).
-/

namespace DL

/-- The single quote character, used inside diagnostic and assembly text. -/
def sq : String := (Char.ofNat 39).toString

/-- Values carried by tokens: Python stores either the parsed integer of a
digit run or the accumulated string. -/
inductive TokVal where
  | num (n : Nat)
  | str (s : String)
deriving DecidableEq

/-- Python string interpolation of a token value. -/
def TokVal.toStr : TokVal → String
  | .num n => toString n
  | .str s => s

/-- A token: kind tag, value and source line, as built by tokenize. -/
structure Token where
  typ : String
  val : TokVal
  line : Nat
deriving DecidableEq

/-- SYM_TOK of main.py line 5. -/
def SYM_TOK : List Char :=
  ['+', '-', '*', '/', '(', ')', '>', '<', '=', ':', ';', '\x7b', '\x7d']

/-- TYPE_TOK of main.py line 6. -/
def TYPE_TOK : List String := ["i32", "i8", "i16", "i64"]

/-- KEY_TOK of main.py line 7. -/
def KEY_TOK : List String := ["main", "return"]

/-- The integer value of an all-digit word, as Python int() computes it. -/
def str_to_int (s : String) : Nat :=
  s.toList.foldl (fun a c => a * 10 + (c.toNat - 48)) 0

/-- The emit_current closure of tokenize (main.py lines 23 to 35): an empty
accumulator emits nothing; otherwise the word is classified with the
precedence all digits, then TYPE_TOK, then KEY_TOK, then identifier. -/
def emit_current (current : String) (line : Nat) : List Token :=
  if current = "" then []
  else if current.toList.all Char.isDigit then
    [⟨"NUM", .num (str_to_int current), line⟩]
  else if current ∈ TYPE_TOK then [⟨"TYPE", .str current, line⟩]
  else if current ∈ KEY_TOK then [⟨"KEY", .str current, line⟩]
  else [⟨"VAR", .str current, line⟩]

/-- One step of the character scan of tokenize: the state is the emitted
tokens, the accumulator and the current line. -/
def tok_step (st : List Token × String × Nat) (ch : Char) :
    List Token × String × Nat :=
  match st with
  | (toks, current, line) =>
    if ch = '\n' then (toks ++ emit_current current line, "", line + 1)
    else if ch ∈ SYM_TOK then
      (toks ++ emit_current current line ++ [⟨"SYM", .str ch.toString, line⟩],
        "", line)
    else if ch.isWhitespace then (toks ++ emit_current current line, "", line)
    else (toks, current.push ch, line)

/-- tokenize (main.py lines 18 to 50): single left to right scan, flushing
the remaining accumulator at end of input. -/
def tokenize (input_string : String) : List Token :=
  match input_string.toList.foldl tok_step ([], "", 1) with
  | (toks, current, line) => toks ++ emit_current current line

/-- Errors of the pipeline.  compileError is the structured CompileError
channel; attributeError models an uncaught Python AttributeError;
outOfFuel is the artificial fuel exhaustion branch of parse_block, never
reached from parse_function. -/
inductive Err where
  | compileError (msg : String)
  | attributeError (msg : String)
  | outOfFuel
deriving DecidableEq

/-- Parser.error (main.py lines 77 to 79): structured diagnostic carrying
path, line and message. -/
def perror (file_path : String) (line : Nat) (msg : String) : Err :=
  .compileError (file_path ++ ":" ++ toString line ++ ": ERROR: " ++ msg)

/-- The AttributeError Python raises when a field of the absent token
(None) is read. -/
def none_attr_err (fld : String) : Err :=
  .attributeError ("NoneType object has no attribute " ++ fld)

/-- The AttributeError Python raises in the unsupported code generation
branches: the diagnostic f-string reads self.line, an attribute that
CodeGen.__init__ never sets, so the interpolation itself fails before the
print and exit can run. -/
def codegen_line_err : Err := .attributeError "CodeGen object has no attribute line"

/-- extract_token (main.py lines 56 to 57). -/
def extract_token (tokens : List Token) (typ : String) (val : TokVal) :
    List Token :=
  tokens.filter (fun t => t.typ == typ && t.val == val)

/-- find_entry (main.py lines 59 to 61): raises CompileError, with the
path but no line component, when no KEY main token exists. -/
def find_entry (tokens : List Token) (file_path : String) : Except Err Unit :=
  if extract_token tokens "KEY" (.str "main") = [] then
    .error (.compileError (file_path ++ ": ERROR: missing entry point main"))
  else .ok ()

/-- Expressions: IntLiteral (typ starts unset) and Variable (typ set from
the symbol table at parse time). -/
inductive Expr where
  | IntLiteral (val : TokVal) (typ : Option TokVal)
  | Variable (name : TokVal) (typ : Option TokVal)
deriving DecidableEq

/-- The typ field shared by both expression variants. -/
def Expr.typ : Expr → Option TokVal
  | .IntLiteral _ t => t
  | .Variable _ t => t

/-- Assignment to the typ field (the back-patch step of the parser). -/
def Expr.set_typ : Expr → TokVal → Expr
  | .IntLiteral v _, t => .IntLiteral v (some t)
  | .Variable n _, t => .Variable n (some t)

/-- Statements: VarDecl and Return. -/
inductive Stmt where
  | VarDecl (name : TokVal) (typ : TokVal) (expr : Expr)
  | Return (expr : Expr)
deriving DecidableEq

/-- The single function node produced by parsing. -/
structure Function where
  body : List Stmt
deriving DecidableEq

/-- The symbol table: Python dict from names to declared types, modelled
as a most-recent-first association list. -/
abbrev Sym := List (TokVal × TokVal)

/-- Dict lookup: the most recently written binding wins. -/
def sym_lookup : Sym → TokVal → Option TokVal
  | [], _ => none
  | (k, v) :: rest, key => if k = key then some v else sym_lookup rest key

/-- Python interpolation of an optional type (None prints as None). -/
def opt_typ_str : Option TokVal → String
  | none => "None"
  | some v => v.toStr

/-- The value check half of Parser.consume. -/
def consume_val (file_path : String) (val : Option TokVal) (tok : Token)
    (rest : List Token) : Except Err (Token × List Token) :=
  match val with
  | some v =>
    if tok.val ≠ v then
      .error (perror file_path tok.line
        ("expected " ++ sq ++ v.toStr ++ sq ++ ", got " ++ sq ++ tok.val.toStr ++ sq))
    else .ok (tok, rest)
  | none => .ok (tok, rest)

/-- Parser.consume (main.py lines 86 to 95): on an exhausted sequence the
structured unexpected end of file diagnostic is raised with line 0;
otherwise the optional kind and value expectations are checked and the
cursor advances past the token. -/
def consume (file_path : String) (typ : Option String) (val : Option TokVal) :
    List Token → Except Err (Token × List Token)
  | [] => .error (perror file_path 0 "unexpected end of file")
  | tok :: rest =>
    match typ with
    | some ty =>
      if tok.typ ≠ ty then
        .error (perror file_path tok.line ("expected " ++ ty ++ ", got " ++ tok.typ))
      else consume_val file_path val tok rest
    | none => consume_val file_path val tok rest

/-- Parser.parse_expr (main.py lines 151 to 164).  peek on an exhausted
sequence returns None and the immediate tok.typ read raises
AttributeError.  A NUM token becomes an IntLiteral with unset typ; a VAR
token is looked up in the symbol table, absence raising the structured
undeclared variable diagnostic. -/
def parse_expr (file_path : String) (sym : Sym) :
    List Token → Except Err (Expr × List Token)
  | [] => .error (none_attr_err "typ")
  | tok :: rest =>
    if tok.typ = "NUM" then .ok (.IntLiteral tok.val none, rest)
    else if tok.typ = "VAR" then
      match sym_lookup sym tok.val with
      | none =>
        .error (perror file_path tok.line
          ("undeclared variable " ++ sq ++ tok.val.toStr ++ sq))
      | some t => .ok (.Variable tok.val (some t), rest)
    else .error (perror file_path tok.line "invalid expression")

/-- Parser.parse_decl (main.py lines 121 to 136): name, colon, type,
equals, initializer expression, semicolon; an unset initializer type is
stamped with the declared type; a set type conflicting with it raises the
type mismatch diagnostic at the name token line; only then is the name
bound in the symbol table (binding after the initializer). -/
def parse_decl (file_path : String) (sym : Sym) (toks : List Token) :
    Except Err (Stmt × Sym × List Token) := do
  let (name, toks) ← consume file_path (some "VAR") none toks
  let (_, toks) ← consume file_path (some "SYM") (some (.str ":")) toks
  let (typ, toks) ← consume file_path (some "TYPE") none toks
  let (_, toks) ← consume file_path (some "SYM") (some (.str "=")) toks
  let (expr, toks) ← parse_expr file_path sym toks
  let (_, toks) ← consume file_path (some "SYM") (some (.str ";")) toks
  let expr := if expr.typ = none then expr.set_typ typ.val else expr
  if expr.typ ≠ some typ.val then
    .error (perror file_path name.line
      ("type mismatch: cannot assign " ++ opt_typ_str expr.typ ++ " to " ++ typ.val.toStr))
  else
    .ok (.VarDecl name.val typ.val expr, (name.val, typ.val) :: sym, toks)

/-- Parser.parse_return (main.py lines 138 to 149): an unset expression
type is stamped i32, a set one must equal i32. -/
def parse_return (file_path : String) (sym : Sym) (toks : List Token) :
    Except Err (Stmt × List Token) := do
  let (tok, toks) ← consume file_path (some "KEY") (some (.str "return")) toks
  let (expr, toks) ← parse_expr file_path sym toks
  let (_, toks) ← consume file_path (some "SYM") (some (.str ";")) toks
  let expr := if expr.typ = none then expr.set_typ (.str "i32") else expr
  if expr.typ ≠ some (.str "i32") then
    .error (perror file_path tok.line
      ("return type " ++ opt_typ_str expr.typ ++ ", expected i32"))
  else .ok (.Return expr, toks)

/-- Parser.parse_statement (main.py lines 113 to 119): dispatch on the
peeked token kind; peek of an exhausted sequence returns None whose typ
read raises AttributeError. -/
def parse_statement (file_path : String) (sym : Sym) (toks : List Token) :
    Except Err (Stmt × Sym × List Token) :=
  match toks with
  | [] => .error (none_attr_err "typ")
  | tok :: _ =>
    if tok.typ = "VAR" then parse_decl file_path sym toks
    else if tok.typ = "KEY" ∧ tok.val = .str "return" then
      match parse_return file_path sym toks with
      | .error e => .error e
      | .ok (s, toks) => .ok (s, sym, toks)
    else .error (perror file_path tok.line "invalid statement")

/-- Parser.parse_block (main.py lines 107 to 111): loop while the peeked
token value differs from the closing brace.  On an exhausted sequence
peek returns None and the loop condition reads val of None, raising
AttributeError rather than any structured diagnostic.  The fuel argument
only bounds loop iterations; callers pass more fuel than tokens remain,
so the outOfFuel branch is unreachable. -/
def parse_block (fuel : Nat) (file_path : String) (sym : Sym)
    (toks : List Token) : Except Err (List Stmt × Sym × List Token) :=
  match fuel with
  | 0 => .error .outOfFuel
  | fuel + 1 =>
    match toks with
    | [] => .error (none_attr_err "val")
    | tok :: _ =>
      if tok.val = .str "\x7d" then .ok ([], sym, toks)
      else
        match parse_statement file_path sym toks with
        | .error e => .error e
        | .ok (s, sym, toks) =>
          match parse_block fuel file_path sym toks with
          | .error e => .error e
          | .ok (stmts, sym, toks) => .ok (s :: stmts, sym, toks)

/-- Parser.parse_function (main.py lines 97 to 105): the fixed header
main : : i32 followed by a braced block.  Trailing tokens after the
closing brace are left unconsumed and returned. -/
def parse_function (file_path : String) (toks : List Token) :
    Except Err (Function × List Token) := do
  let (_, toks) ← consume file_path (some "KEY") (some (.str "main")) toks
  let (_, toks) ← consume file_path (some "SYM") (some (.str ":")) toks
  let (_, toks) ← consume file_path (some "SYM") (some (.str ":")) toks
  let (_, toks) ← consume file_path (some "TYPE") (some (.str "i32")) toks
  let (_, toks) ← consume file_path (some "SYM") (some (.str "\x7b")) toks
  let (body, _, toks) ← parse_block (toks.length + 1) file_path [] toks
  let (_, toks) ← consume file_path (some "SYM") (some (.str "\x7d")) toks
  .ok (⟨body⟩, toks)

/-- parse_file (main.py lines 63 to 68) with the file read replaced by the
content argument: tokenize, scan for the entry point, then parse. -/
def parse_file (file_path : String) (content : String) : Except Err Function := do
  let tokens := tokenize content
  let _ ← find_entry tokens file_path
  let (fn, _) ← parse_function file_path tokens
  .ok fn

/-- The code generator state: output lines, output filename, the unused
sym dict, and the base offset, initialised to 0 and never written again
(generate_vardec only increments a local copy). -/
structure CodeGen where
  out : List String
  filename : String
  sym : Sym
  offset : Nat
deriving DecidableEq

/-- CodeGen.__init__ (main.py lines 191 to 195). -/
def CodeGen.init (filename : String := "a.asm") : CodeGen :=
  ⟨[], filename, [], 0⟩

/-- CodeGen.emit (main.py lines 197 to 198). -/
def CodeGen.emit (cg : CodeGen) (line : String) : CodeGen :=
  { cg with out := cg.out ++ [line] }

/-- The width if-chain shared by generate_vardec and generate_var
(main.py lines 230 to 239): a local offset copy is incremented by the
type width, defaulting to 1 for unknown types. -/
def decl_offset_width (typ : TokVal) : Nat :=
  if typ = .str "i8" ∨ typ = .str "u8" then 1
  else if typ = .str "i16" ∨ typ = .str "u16" then 2
  else if typ = .str "i32" ∨ typ = .str "u32" then 4
  else if typ = .str "u64" ∨ typ = .str "i64" then 8
  else 1

/-- CodeGen.generate_vardec (main.py lines 228 to 245): the slot is the
(never advanced) base offset plus the width of the declared type; a
literal initializer is stored there; any other initializer reaches the
diagnostic f-string that reads the nonexistent self.line attribute,
raising AttributeError before print and exit run. -/
def CodeGen.generate_vardec (cg : CodeGen) (vardecl_typ : TokVal)
    (vardecl_expr : Expr) : Except Err CodeGen :=
  let offset := cg.offset + decl_offset_width vardecl_typ
  match vardecl_expr with
  | .IntLiteral v _ =>
    .ok (cg.emit ("        mov DWORD [rbp-" ++ toString offset ++ "], " ++ v.toStr))
  | _ => .error codegen_line_err

/-- CodeGen.generate_return (main.py lines 267 to 273): a literal return
expression moves the value into eax; any other expression reaches the
diagnostic f-string that reads the nonexistent self.line attribute,
raising AttributeError before print and exit run. -/
def CodeGen.generate_return (cg : CodeGen) (retval_expr : Expr) :
    Except Err CodeGen :=
  match retval_expr with
  | .IntLiteral v _ => .ok (cg.emit ("        mov eax, " ++ v.toStr))
  | _ => .error codegen_line_err

/-- The statement dispatch of CodeGen.generate (main.py lines 200 to 212)
restricted to the two statement forms a Function body can hold. -/
def CodeGen.generate_stmt (cg : CodeGen) : Stmt → Except Err CodeGen
  | .VarDecl _ typ expr => cg.generate_vardec typ expr
  | .Return expr => cg.generate_return expr

/-- The statement loop inside generate_func. -/
def CodeGen.generate_stmts (cg : CodeGen) : List Stmt → Except Err CodeGen
  | [] => .ok cg
  | s :: rest => do
    let cg ← cg.generate_stmt s
    cg.generate_stmts rest

/-- CodeGen.generate_func (main.py lines 214 to 227): preamble, label,
prologue, one emission per statement, epilogue. -/
def CodeGen.generate_func (cg : CodeGen) (fn : Function) : Except Err CodeGen := do
  let cg := cg.emit "format ELF64"
  let cg := cg.emit "public main"
  let cg := cg.emit ("section " ++ sq ++ ".text" ++ sq ++ " executable")
  let cg := cg.emit ""
  let cg := cg.emit "main:"
  let cg := cg.emit "        push rbp"
  let cg := cg.emit "        mov rbp, rsp"
  let cg ← cg.generate_stmts fn.body
  let cg := cg.emit "        pop rbp"
  let cg := cg.emit "        ret\n"
  .ok cg

/-- The compilation pipeline of main (main.py lines 312 to 324) up to the
assembly text: parse then generate; on any error no assembly lines are
produced. -/
def compile (file_path : String) (content : String) : Except Err (List String) := do
  let fn ← parse_file file_path content
  let cg ← (CodeGen.init).generate_func fn
  .ok cg.out

/-- The seven lines generate_func emits before the statements. -/
def func_prefix_lines : List String :=
  ["format ELF64", "public main",
    "section " ++ sq ++ ".text" ++ sq ++ " executable", "",
    "main:", "        push rbp", "        mov rbp, rsp"]

/-- The two lines generate_func emits after the statements. -/
def func_suffix_lines : List String :=
  ["        pop rbp", "        ret\n"]

/-- Recognises the variable store instruction shape emitted by
generate_vardec. -/
def is_var_store (l : String) : Bool :=
  "        mov DWORD [rbp-".toList.isPrefixOf l.toList

/-- C1: on main::i32{x:i32=5;return x;} parsing and binding succeed; code
generation then hits the unsupported return expression branch, but that
branch reads the nonexistent self.line attribute while formatting its
diagnostic, so the process dies of an uncaught AttributeError and the
promised diagnostic message is never printed.  The claim (and the spec)
describe a printed message followed by a nonzero exit; the code is a slip
against that intent. -/
theorem c1_return_variable_dies_before_printing :
    parse_file "test.dl" "main::i32\x7bx:i32=5;return x;\x7d"
      = .ok ⟨[.VarDecl (.str "x") (.str "i32") (.IntLiteral (.num 5) (some (.str "i32"))),
              .Return (.Variable (.str "x") (some (.str "i32")))]⟩
    ∧ compile "test.dl" "main::i32\x7bx:i32=5;return x;\x7d"
      = .error codegen_line_err := ⟨rfl, rfl⟩

/-- C2 counterexample: for the concrete input foo (no main keyword token)
the diagnostic is test.dl: ERROR: missing entry point main, which cites
the path but has no line component at all, so it does not begin with the
path:0: prefix the claimed format requires. -/
theorem c2_counterexample_no_line_zero :
    compile "test.dl" "foo"
      = .error (.compileError "test.dl: ERROR: missing entry point main")
    ∧ "test.dl:0:".toList.isPrefixOf
        "test.dl: ERROR: missing entry point main".toList = false := ⟨rfl, by decide⟩

/-- C2 amended: for every input whose token sequence contains no KEY main
token, compilation fails before parsing with the missing entry point
diagnostic citing the source path (but no line number), and no assembly
output is produced. -/
theorem c2_missing_main_diagnostic (file_path content : String)
    (h : extract_token (tokenize content) "KEY" (.str "main") = []) :
    compile file_path content
      = .error (.compileError (file_path ++ ": ERROR: missing entry point main")) := by
  simp [compile, parse_file, find_entry, h, bind, Except.bind]

/-- Witness for c2_missing_main_diagnostic at a concrete input. -/
theorem c2_missing_main_diagnostic_witness :
    compile "test.dl" "x:i32=1;"
      = .error (.compileError "test.dl: ERROR: missing entry point main") :=
  c2_missing_main_diagnostic "test.dl" "x:i32=1;" rfl

/-- C3: on main::i32{x:i32=1;y:i32=2;return 3;} code generation succeeds
and the output contains exactly two variable store instructions, both
addressing the identical slot rbp-4 (base offset 0 plus the i32 width 4,
the base never advancing between declarations). -/
theorem c3_two_stores_same_slot :
    compile "test.dl" "main::i32\x7bx:i32=1;y:i32=2;return 3;\x7d"
      = .ok (func_prefix_lines
          ++ ["        mov DWORD [rbp-4], 1", "        mov DWORD [rbp-4], 2",
              "        mov eax, 3"]
          ++ func_suffix_lines)
    ∧ (func_prefix_lines
          ++ ["        mov DWORD [rbp-4], 1", "        mov DWORD [rbp-4], 2",
              "        mov eax, 3"]
          ++ func_suffix_lines).filter is_var_store
        = ["        mov DWORD [rbp-4], 1", "        mov DWORD [rbp-4], 2"] :=
  ⟨rfl, by decide⟩

/-- C4 counterexample: the token sequence of main::i32{x contains a main
keyword token, begins with the prefix main : : i32 brace and is exhausted
before any closing brace, yet parsing produces the structured unexpected
end of file diagnostic (from consume inside the declaration), not an
unstructured runtime error, refuting the claim as universally stated. -/
theorem c4_counterexample_structured_eof :
    parse_function "test.dl" (tokenize "main::i32\x7bx")
      = .error (.compileError "test.dl:0: ERROR: unexpected end of file") := rfl

/-- C4 amended: when the token sequence is exhausted exactly at a
statement boundary inside the block (the block loop peek returns no
token), parsing fails with the unstructured AttributeError from reading
val of the absent token, not with a structured diagnostic; in particular
main::i32 brace with nothing after it fails that way. -/
theorem c4_block_loop_attribute_error :
    (∀ (file_path : String) (sym : Sym) (fuel : Nat),
        parse_block (fuel + 1) file_path sym [] = .error (none_attr_err "val"))
    ∧ parse_function "test.dl" (tokenize "main::i32\x7b")
        = .error (none_attr_err "val") :=
  ⟨fun _ _ _ => rfl, rfl⟩

/-- C5: on main::i32{return 42;} compilation succeeds and the statement
emission region between the prologue and the epilogue is exactly one move
of the literal 42 into eax, which is not a variable store. -/
theorem c5_return_42_single_mov :
    compile "test.dl" "main::i32\x7breturn 42;\x7d"
      = .ok (func_prefix_lines ++ ["        mov eax, 42"] ++ func_suffix_lines)
    ∧ is_var_store "        mov eax, 42" = false := ⟨rfl, by decide⟩

/-- Stamping an expression type makes the typ field that type. -/
theorem Expr.typ_set_typ (e : Expr) (t : TokVal) : (e.set_typ t).typ = some t := by
  cases e <;> rfl

/-- C6: a declaration whose initializer already carries a resolved type
conflicting with the declared type fails with the type mismatch
diagnostic reporting both types at the declaration name line; an
unresolved initializer is instead stamped with the declared type and the
declaration succeeds, binding the name. -/
theorem c6_decl_type_mismatch (file_path : String) (sym : Sym)
    (n tyv : TokVal) (l1 l2 l3 l4 l5 : Nat) (expr_toks rest : List Token) (e : Expr)
    (hE : parse_expr file_path sym expr_toks = .ok (e, ⟨"SYM", .str ";", l5⟩ :: rest)) :
    (∀ t, e.typ = some t → t ≠ tyv →
      parse_decl file_path sym
          (⟨"VAR", n, l1⟩ :: ⟨"SYM", .str ":", l2⟩ :: ⟨"TYPE", tyv, l3⟩
            :: ⟨"SYM", .str "=", l4⟩ :: expr_toks)
        = .error (perror file_path l1
            ("type mismatch: cannot assign " ++ t.toStr ++ " to " ++ tyv.toStr)))
    ∧ (e.typ = none →
      parse_decl file_path sym
          (⟨"VAR", n, l1⟩ :: ⟨"SYM", .str ":", l2⟩ :: ⟨"TYPE", tyv, l3⟩
            :: ⟨"SYM", .str "=", l4⟩ :: expr_toks)
        = .ok (.VarDecl n tyv (e.set_typ tyv), (n, tyv) :: sym, rest)) := by
  constructor
  · intro t ht hne
    simp [parse_decl, consume, consume_val, bind, Except.bind, hE, ht, hne, opt_typ_str]
  · intro h0
    simp [parse_decl, consume, consume_val, bind, Except.bind, hE, h0, Expr.typ_set_typ]

/-- Witness for c6_decl_type_mismatch: y:i32=x; with x previously declared
i8 fails with the type mismatch diagnostic at the declaration line. -/
theorem c6_decl_type_mismatch_witness :
    parse_decl "test.dl" [(.str "x", .str "i8")]
        (⟨"VAR", .str "y", 2⟩ :: ⟨"SYM", .str ":", 2⟩ :: ⟨"TYPE", .str "i32", 2⟩
          :: ⟨"SYM", .str "=", 2⟩ :: ⟨"VAR", .str "x", 2⟩ :: ⟨"SYM", .str ";", 2⟩ :: [])
      = .error (perror "test.dl" 2 "type mismatch: cannot assign i8 to i32") :=
  (c6_decl_type_mismatch "test.dl" [(.str "x", .str "i8")] (.str "y") (.str "i32")
      2 2 2 2 2 [⟨"VAR", .str "x", 2⟩, ⟨"SYM", .str ";", 2⟩] []
      (.Variable (.str "x") (some (.str "i8"))) rfl).1
    (.str "i8") rfl (by decide)

/-- C7: a variable reference whose name is absent from the symbol table
fails with the undeclared variable diagnostic reporting name and line;
and because a declaration binds its name only after the initializer is
parsed, a self referencing initializer with the name not yet bound is
rejected the same way at the reference line. -/
theorem c7_undeclared_variable (file_path : String) (sym : Sym) :
    (∀ (tok : Token) (rest : List Token), tok.typ = "VAR" →
        sym_lookup sym tok.val = none →
        parse_expr file_path sym (tok :: rest)
          = .error (perror file_path tok.line
              ("undeclared variable " ++ sq ++ tok.val.toStr ++ sq)))
    ∧ (∀ (n tyv : TokVal) (l1 l2 l3 l4 l5 l6 : Nat) (rest : List Token),
        sym_lookup sym n = none →
        parse_decl file_path sym
            (⟨"VAR", n, l1⟩ :: ⟨"SYM", .str ":", l2⟩ :: ⟨"TYPE", tyv, l3⟩
              :: ⟨"SYM", .str "=", l4⟩ :: ⟨"VAR", n, l5⟩ :: ⟨"SYM", .str ";", l6⟩ :: rest)
          = .error (perror file_path l5
              ("undeclared variable " ++ sq ++ n.toStr ++ sq))) := by
  constructor
  · intro tok rest htyp hlook
    simp [parse_expr, htyp, hlook]
  · intro n tyv l1 l2 l3 l4 l5 l6 rest hlook
    simp [parse_decl, parse_expr, consume, consume_val, bind, Except.bind, hlook]

/-- Witness for c7_undeclared_variable: a bare reference to z in the empty
table, and the self reference x:i32=x; with x unbound. -/
theorem c7_undeclared_variable_witness :
    parse_expr "test.dl" [] (⟨"VAR", .str "z", 4⟩ :: [])
      = .error (perror "test.dl" 4 ("undeclared variable " ++ sq ++ "z" ++ sq))
    ∧ parse_decl "test.dl" []
        (⟨"VAR", .str "x", 1⟩ :: ⟨"SYM", .str ":", 1⟩ :: ⟨"TYPE", .str "i32", 1⟩
          :: ⟨"SYM", .str "=", 1⟩ :: ⟨"VAR", .str "x", 1⟩ :: ⟨"SYM", .str ";", 1⟩ :: [])
      = .error (perror "test.dl" 1 ("undeclared variable " ++ sq ++ "x" ++ sq)) :=
  ⟨(c7_undeclared_variable "test.dl" []).1 ⟨"VAR", .str "z", 4⟩ [] rfl rfl,
   (c7_undeclared_variable "test.dl" []).2 (.str "x") (.str "i32") 1 1 1 1 1 1 [] rfl⟩

/-- C8: classification precedence of a flushed accumulator word: all
digits gives a NUM token carrying the parsed integer, then membership in
TYPE_TOK gives TYPE, then membership in KEY_TOK gives KEY, otherwise VAR;
an empty accumulator emits no token. -/
theorem c8_lexer_classification (w : String) (line : Nat) :
    emit_current "" line = []
    ∧ (w ≠ "" → w.toList.all Char.isDigit = true →
        emit_current w line = [⟨"NUM", .num (str_to_int w), line⟩])
    ∧ (w ≠ "" → w.toList.all Char.isDigit = false → w ∈ TYPE_TOK →
        emit_current w line = [⟨"TYPE", .str w, line⟩])
    ∧ (w ≠ "" → w.toList.all Char.isDigit = false → w ∉ TYPE_TOK → w ∈ KEY_TOK →
        emit_current w line = [⟨"KEY", .str w, line⟩])
    ∧ (w ≠ "" → w.toList.all Char.isDigit = false → w ∉ TYPE_TOK → w ∉ KEY_TOK →
        emit_current w line = [⟨"VAR", .str w, line⟩]) := by
  refine ⟨rfl, ?_, ?_, ?_, ?_⟩ <;> intros <;> simp_all [emit_current]

/-- Witness for c8_lexer_classification at one word of each class. -/
theorem c8_lexer_classification_witness :
    emit_current "42" 1 = [⟨"NUM", .num 42, 1⟩]
    ∧ emit_current "i32" 1 = [⟨"TYPE", .str "i32", 1⟩]
    ∧ emit_current "main" 1 = [⟨"KEY", .str "main", 1⟩]
    ∧ emit_current "foo" 1 = [⟨"VAR", .str "foo", 1⟩] :=
  ⟨(c8_lexer_classification "42" 1).2.1 (by decide) (by decide),
   (c8_lexer_classification "i32" 1).2.2.1 (by decide) (by decide) (by decide),
   (c8_lexer_classification "main" 1).2.2.2.1 (by decide) (by decide) (by decide)
     (by decide),
   (c8_lexer_classification "foo" 1).2.2.2.2 (by decide) (by decide) (by decide)
     (by decide)⟩

/-- C9: a well formed declaration with a literal initializer succeeds for
every prior symbol table, including one already binding the same name (no
redeclaration diagnostic exists), the new binding overwrites the old for
every later lookup, and the concrete program that redeclares x and then
reads it parses successfully with the reference resolving to the most
recently declared type i8. -/
theorem c9_redeclaration_overwrites (file_path : String) (sym : Sym)
    (n tyv : TokVal) (l1 l2 l3 l4 l5 l6 : Nat) (v : Nat) (rest : List Token) :
    parse_decl file_path sym
        (⟨"VAR", n, l1⟩ :: ⟨"SYM", .str ":", l2⟩ :: ⟨"TYPE", tyv, l3⟩
          :: ⟨"SYM", .str "=", l4⟩ :: ⟨"NUM", .num v, l5⟩ :: ⟨"SYM", .str ";", l6⟩ :: rest)
      = .ok (.VarDecl n tyv (.IntLiteral (.num v) (some tyv)), (n, tyv) :: sym, rest)
    ∧ sym_lookup ((n, tyv) :: sym) n = some tyv
    ∧ parse_function file_path (tokenize "main::i32\x7bx:i32=1;x:i8=2;y:i8=x;return 7;\x7d")
      = .ok (⟨[.VarDecl (.str "x") (.str "i32") (.IntLiteral (.num 1) (some (.str "i32"))),
               .VarDecl (.str "x") (.str "i8") (.IntLiteral (.num 2) (some (.str "i8"))),
               .VarDecl (.str "y") (.str "i8") (.Variable (.str "x") (some (.str "i8"))),
               .Return (.IntLiteral (.num 7) (some (.str "i32")))]⟩, []) := by
  refine ⟨?_, by simp [sym_lookup], rfl⟩
  simp [parse_decl, parse_expr, consume, consume_val, bind, Except.bind, Expr.set_typ,
    Expr.typ]


/-- Binding a successful computation reduces to the continuation. -/
theorem ok_bind {α β : Type} (a : α) (f : α → Except Err β) :
    (Except.ok a >>= f) = f a := rfl

theorem bind_ok {α β : Type} {x : Except Err α} {f : α → Except Err β} {b : β}
    (h : x >>= f = .ok b) : ∃ a, x = .ok a ∧ f a = .ok b := by
  cases x with
  | error e => exact absurd h (by simp [Bind.bind, Except.bind])
  | ok a => exact ⟨a, rfl, h⟩

theorem consume_val_ok {fp : String} {v : Option TokVal} {tok t : Token}
    {toks rest : List Token}
    (h : consume_val fp v tok toks = .ok (t, rest)) :
    t = tok ∧ rest = toks
      ∧ ∀ toks₂, consume_val fp v tok toks₂ = .ok (tok, toks₂) := by
  cases v with
  | none =>
    simp only [consume_val, Except.ok.injEq, Prod.mk.injEq] at h
    obtain ⟨rfl, rfl⟩ := h
    exact ⟨rfl, rfl, fun _ => rfl⟩
  | some vv =>
    simp only [consume_val] at h
    split at h
    next => exact absurd h (by simp)
    next hne =>
      simp only [Except.ok.injEq, Prod.mk.injEq] at h
      obtain ⟨rfl, rfl⟩ := h
      refine ⟨rfl, rfl, fun toks₂ => ?_⟩
      simp only [consume_val]
      rw [if_neg hne]

theorem consume_append {fp : String} {ty : Option String} {v : Option TokVal}
    {toks rest extra : List Token} {t : Token}
    (h : consume fp ty v toks = .ok (t, rest)) :
    consume fp ty v (toks ++ extra) = .ok (t, rest ++ extra) := by
  cases toks with
  | nil => simp [consume, perror] at h
  | cons tok toks0 =>
    rw [List.cons_append]
    cases ty with
    | none =>
      simp only [consume] at h ⊢
      obtain ⟨rfl, rfl, hgen⟩ := consume_val_ok h
      exact hgen _
    | some s =>
      simp only [consume] at h ⊢
      split at h
      next => exact absurd h (by simp)
      next hty =>
        rw [if_neg hty]
        obtain ⟨rfl, rfl, hgen⟩ := consume_val_ok h
        exact hgen _

theorem parse_expr_append {fp : String} {sym : Sym} {toks rest extra : List Token}
    {e : Expr}
    (h : parse_expr fp sym toks = .ok (e, rest)) :
    parse_expr fp sym (toks ++ extra) = .ok (e, rest ++ extra) := by
  cases toks with
  | nil => simp [parse_expr, none_attr_err] at h
  | cons tok toks =>
    rw [List.cons_append]
    simp only [parse_expr] at h ⊢
    split at h
    next hnum =>
      rw [if_pos hnum]
      simp only [Except.ok.injEq, Prod.mk.injEq] at h
      obtain ⟨rfl, rfl⟩ := h
      rfl
    next hnum =>
      rw [if_neg hnum]
      split at h
      next hvar =>
        rw [if_pos hvar]
        cases hl : sym_lookup sym tok.val with
        | none => rw [hl] at h; exact absurd h (by simp)
        | some tt =>
          rw [hl] at h
          simp only [Except.ok.injEq, Prod.mk.injEq] at h
          obtain ⟨rfl, rfl⟩ := h
          rfl
      next hvar =>
        rw [if_neg hvar]
        exact absurd h (by simp)


theorem ite_error_ok_append3 {A B : Type} {c : Prop} [Decidable c] {er : Err}
    {a : A} {b : B} {a2 : A} {b2 : B} {toks rest extra : List Token}
    (h : (if c then Except.error er else Except.ok (a, b, toks))
        = Except.ok (a2, b2, rest)) :
    (if c then Except.error er else Except.ok (a, b, toks ++ extra))
      = Except.ok (a2, b2, rest ++ extra) := by
  split at h
  · exact absurd h (by simp)
  next hc =>
    rw [if_neg hc]
    simp only [Except.ok.injEq, Prod.mk.injEq] at h ⊢
    obtain ⟨rfl, rfl, rfl⟩ := h
    exact ⟨rfl, rfl, rfl⟩

theorem ite_error_ok_append2 {A : Type} {c : Prop} [Decidable c] {er : Err}
    {a : A} {a2 : A} {toks rest extra : List Token}
    (h : (if c then Except.error er else Except.ok (a, toks)) = Except.ok (a2, rest)) :
    (if c then Except.error er else Except.ok (a, toks ++ extra))
      = Except.ok (a2, rest ++ extra) := by
  split at h
  · exact absurd h (by simp)
  next hc =>
    rw [if_neg hc]
    simp only [Except.ok.injEq, Prod.mk.injEq] at h ⊢
    obtain ⟨rfl, rfl⟩ := h
    exact ⟨rfl, rfl⟩

theorem parse_decl_append {fp : String} {sym : Sym} {toks rest extra : List Token}
    {s : Stmt} {sym₂ : Sym}
    (h : parse_decl fp sym toks = .ok (s, sym₂, rest)) :
    parse_decl fp sym (toks ++ extra) = .ok (s, sym₂, rest ++ extra) := by
  unfold parse_decl at h ⊢
  obtain ⟨⟨name, toks1⟩, h1, h⟩ := bind_ok h
  simp only [consume_append h1, ok_bind]
  dsimp only at h ⊢
  obtain ⟨⟨t2, toks2⟩, h2, h⟩ := bind_ok h
  simp only [consume_append h2, ok_bind]
  dsimp only at h ⊢
  obtain ⟨⟨typ, toks3⟩, h3, h⟩ := bind_ok h
  simp only [consume_append h3, ok_bind]
  dsimp only at h ⊢
  obtain ⟨⟨t4, toks4⟩, h4, h⟩ := bind_ok h
  simp only [consume_append h4, ok_bind]
  dsimp only at h ⊢
  obtain ⟨⟨expr, toks5⟩, h5, h⟩ := bind_ok h
  simp only [parse_expr_append h5, ok_bind]
  dsimp only at h ⊢
  obtain ⟨⟨t6, toks6⟩, h6, h⟩ := bind_ok h
  simp only [consume_append h6, ok_bind]
  dsimp only at h ⊢
  exact ite_error_ok_append3 h

theorem parse_return_append {fp : String} {sym : Sym} {toks rest : List Token}
    (extra : List Token) {s : Stmt}
    (h : parse_return fp sym toks = .ok (s, rest)) :
    parse_return fp sym (toks ++ extra) = .ok (s, rest ++ extra) := by
  unfold parse_return at h ⊢
  obtain ⟨⟨tok, toks1⟩, h1, h⟩ := bind_ok h
  simp only [consume_append h1, ok_bind]
  dsimp only at h ⊢
  obtain ⟨⟨expr, toks2⟩, h2, h⟩ := bind_ok h
  simp only [parse_expr_append h2, ok_bind]
  dsimp only at h ⊢
  obtain ⟨⟨t3, toks3⟩, h3, h⟩ := bind_ok h
  simp only [consume_append h3, ok_bind]
  dsimp only at h ⊢
  exact ite_error_ok_append2 h

theorem parse_statement_append {fp : String} {sym : Sym}
    {toks rest : List Token} (extra : List Token) {s : Stmt} {sym₂ : Sym}
    (h : parse_statement fp sym toks = .ok (s, sym₂, rest)) :
    parse_statement fp sym (toks ++ extra) = .ok (s, sym₂, rest ++ extra) := by
  cases toks with
  | nil => simp [parse_statement, none_attr_err] at h
  | cons tok toks0 =>
    rw [List.cons_append]
    simp only [parse_statement] at h ⊢
    split at h
    next hvar => rw [if_pos hvar]; exact parse_decl_append h
    next hvar =>
      rw [if_neg hvar]
      split at h
      next hkey =>
        rw [if_pos hkey]
        cases hr : parse_return fp sym (tok :: toks0) with
        | error e => rw [hr] at h; exact absurd h (by simp)
        | ok p =>
          obtain ⟨s1, toks1⟩ := p
          rw [hr] at h
          have hr2 := parse_return_append extra hr
          rw [List.cons_append] at hr2
          rw [hr2]
          simp only [Except.ok.injEq, Prod.mk.injEq] at h ⊢
          obtain ⟨rfl, rfl, rfl⟩ := h
          exact ⟨rfl, rfl, rfl⟩
      next hkey => rw [if_neg hkey]; exact absurd h (by simp)

theorem parse_block_append {fp : String} :
    ∀ (fuel fuel₂ : Nat) (sym : Sym) (toks : List Token) (ss : List Stmt)
      (sym₂ : Sym) (rest extra : List Token),
      parse_block fuel fp sym toks = .ok (ss, sym₂, rest) → fuel ≤ fuel₂ →
      parse_block fuel₂ fp sym (toks ++ extra) = .ok (ss, sym₂, rest ++ extra) := by
  intro fuel
  induction fuel with
  | zero =>
    intro fuel₂ sym toks ss sym₂ rest extra h _
    simp [parse_block] at h
  | succ f ih =>
    intro fuel₂ sym toks ss sym₂ rest extra h hle
    cases fuel₂ with
    | zero => exact absurd hle (by omega)
    | succ f₂ =>
      cases toks with
      | nil => simp [parse_block, none_attr_err] at h
      | cons tok toks0 =>
        rw [List.cons_append]
        simp only [parse_block] at h ⊢
        split at h
        next hbr =>
          rw [if_pos hbr]
          simp only [Except.ok.injEq, Prod.mk.injEq] at h ⊢
          obtain ⟨rfl, rfl, rfl⟩ := h
          exact ⟨rfl, rfl, rfl⟩
        next hbr =>
          rw [if_neg hbr]
          cases hs : parse_statement fp sym (tok :: toks0) with
          | error e => rw [hs] at h; exact absurd h (by simp)
          | ok p =>
            obtain ⟨s1, sym1, toks1⟩ := p
            rw [hs] at h
            dsimp only at h
            have hs2 := parse_statement_append extra hs
            rw [List.cons_append] at hs2
            rw [hs2]
            dsimp only
            cases hb : parse_block f fp sym1 toks1 with
            | error e => rw [hb] at h; exact absurd h (by simp)
            | ok q =>
              obtain ⟨ss1, sym3, toks2⟩ := q
              rw [hb] at h
              have hb2 := ih f₂ sym1 toks1 ss1 sym3 toks2 extra hb
                (Nat.le_of_succ_le_succ hle)
              rw [hb2]
              simp only [Except.ok.injEq, Prod.mk.injEq] at h ⊢
              obtain ⟨rfl, rfl, rfl⟩ := h
              exact ⟨rfl, rfl, rfl⟩

/-- C10: parsing consumes tokens only up to and including the closing
brace: whenever parse_function succeeds on a token sequence, it succeeds
on that sequence with arbitrary extra tokens appended, returning the same
Function node and leaving the extra tokens (after the same leftover)
unconsumed and undiagnosed. -/
theorem c10_trailing_tokens_ignored (file_path : String)
    (toks extra : List Token) (fn : Function) (rest : List Token)
    (h : parse_function file_path toks = .ok (fn, rest)) :
    parse_function file_path (toks ++ extra) = .ok (fn, rest ++ extra) := by
  unfold parse_function at h ⊢
  obtain ⟨⟨t1, toks1⟩, h1, h⟩ := bind_ok h
  simp only [consume_append h1, ok_bind]
  dsimp only at h ⊢
  obtain ⟨⟨t2, toks2⟩, h2, h⟩ := bind_ok h
  simp only [consume_append h2, ok_bind]
  dsimp only at h ⊢
  obtain ⟨⟨t3, toks3⟩, h3, h⟩ := bind_ok h
  simp only [consume_append h3, ok_bind]
  dsimp only at h ⊢
  obtain ⟨⟨t4, toks4⟩, h4, h⟩ := bind_ok h
  simp only [consume_append h4, ok_bind]
  dsimp only at h ⊢
  obtain ⟨⟨t5, toks5⟩, h5, h⟩ := bind_ok h
  simp only [consume_append h5, ok_bind]
  dsimp only at h ⊢
  obtain ⟨⟨body, sym6, toks6⟩, h6, h⟩ := bind_ok h
  have h6b := parse_block_append (toks5.length + 1) ((toks5 ++ extra).length + 1)
    [] toks5 body sym6 toks6 extra h6 (by simp)
  rw [h6b, ok_bind]
  dsimp only at h ⊢
  obtain ⟨⟨t7, toks7⟩, h7, h⟩ := bind_ok h
  simp only [consume_append h7, ok_bind]
  dsimp only at h ⊢
  simp only [Except.ok.injEq, Prod.mk.injEq] at h ⊢
  obtain ⟨rfl, rfl⟩ := h
  exact ⟨rfl, rfl⟩

/-- Witness for c10_trailing_tokens_ignored: appending a junk token after
the closing brace of a complete function leaves the parse result
unchanged, the junk token staying unconsumed. -/
theorem c10_trailing_tokens_ignored_witness :
    parse_function "test.dl"
        (tokenize "main::i32\x7breturn 42;\x7d" ++ [⟨"VAR", .str "junk", 9⟩])
      = .ok (⟨[.Return (.IntLiteral (.num 42) (some (.str "i32")))]⟩,
          [⟨"VAR", .str "junk", 9⟩]) :=
  c10_trailing_tokens_ignored "test.dl" (tokenize "main::i32\x7breturn 42;\x7d")
    [⟨"VAR", .str "junk", 9⟩]
    ⟨[.Return (.IntLiteral (.num 42) (some (.str "i32")))]⟩ [] rfl

end DL
